import Mathlib

/-!
# Verification of the rgeo reverse-geocoding library

Shallow embedding of the rgeo package (src/rgeo.go and the package file held
in src/unnamed/part_000).  Machine floats are modelled by exact rationals;
Go maps by association lists or `String → Option` functions; Go's
`(value, error)` returns by pairs with an `Option` error, and constructors
that return `(nil, err)` by `Except`.  The external collaborators (the s2
spatial index and cap geometry, the orb planar `Orientation`, gzip and JSON
decoding) are modelled at their call boundary, as documented on each
definition.
-/

/-- A planar coordinate: `orb.Point` is a pair of float64 holding longitude
(index 0, `X()`) and latitude (index 1, `Y()`).  Exact rationals model the
float arithmetic. -/
structure Point where
  x : ℚ
  y : ℚ
deriving DecidableEq

/-- `Location` is the attribute record attached to every indexed shape
(src/unnamed/part_000 lines 61-84).  Field defaults are the Go zero value. -/
structure Location where
  Country : String := ""
  CountryLong : String := ""
  CountryCode2 : String := ""
  CountryCode3 : String := ""
  Continent : String := ""
  Region : String := ""
  SubRegion : String := ""
  Province : String := ""
  ProvinceCode : String := ""
  County : String := ""
  City : String := ""
deriving DecidableEq

/-- A decoded GeoJSON property value: the feature-collection format delivers
scalars (string, number or bool) in the properties mapping. -/
inductive Scalar where
  | str (s : String)
  | num (q : ℚ)
  | flag (b : Bool)
deriving DecidableEq

/-- Raw feature geometry as decoded from GeoJSON: `orb.Geometry` restricted
to the kinds the code distinguishes (`orb.Polygon`, `orb.MultiPolygon`, and
any other geometry kind, which `polygonFromGeometry` rejects). -/
inductive Geometry where
  | polygon (p : List (List Point))
  | multiPolygon (mp : List (List (List Point)))
  | other
deriving DecidableEq

/-- Shape handles: the Go code keys its maps by the `*s2.Polygon` pointer and
every feature allocates a fresh polygon, so handles are process-unique and
independent of geometric content.  Modelled as the insertion counter. -/
abbrev Shape := ℕ

/-- Association-list lookup, modelling Go map indexing (`m[k]` with the
`, ok` form). -/
def assocFind {α β : Type} [DecidableEq α] : List (α × β) → α → Option β
  | [], _ => none
  | (k, v) :: rest, a => if k = a then some v else assocFind rest a

/-- `firstNonEmpty` returns the first non empty parameter
(src/unnamed/part_000 lines 254-262); the Go variadic string parameter
becomes a list. -/
def firstNonEmpty : List String → String
  | [] => ""
  | s :: rest => if s ≠ "" then s else firstNonEmpty rest

/-- The Go type assertion `v.(string)`: yields the string and ok=true on a
string-typed value, otherwise the zero value and ok=false. -/
def asString : Option Scalar → Option String
  | some (Scalar.str s) => some s
  | _ => none

/-- `getPropertyString` (src/unnamed/part_000 lines 286-296, src/rgeo.go
lines 182-192): `s, ok = m[k].(string)` sets `s` to the value and breaks on a
string-typed hit, and resets `s` to "" and continues otherwise, so the
function returns the first string-typed value among the keys, else "". -/
def getPropertyString (m : String → Option Scalar) : List String → String
  | [] => ""
  | k :: keys =>
    match asString (m k) with
    | some s => s
    | none => getPropertyString m keys

/-- `strings.TrimSuffix`: removes one trailing occurrence of the suffix when
present (computed on the character list so it evaluates by kernel
reduction). -/
def trimSuffix (s suffix : String) : String :=
  if suffix.data.isSuffixOf s.data
  then String.mk (s.data.take (s.data.length - suffix.data.length))
  else s

/-- `getLocationStrings` (src/unnamed/part_000 lines 265-282): extracts the
`Location` fields from the GeoJSON properties; the county field is set only
when the TYPE property is the string "County". -/
def getLocationStrings (p : String → Option Scalar) : Location :=
  let loc : Location :=
    { Country := getPropertyString p ["ADMIN", "admin"]
      CountryLong := getPropertyString p ["FORMAL_EN"]
      CountryCode2 := getPropertyString p ["ISO_A2"]
      CountryCode3 := getPropertyString p ["ISO_A3"]
      Continent := getPropertyString p ["CONTINENT"]
      Region := getPropertyString p ["REGION_UN"]
      SubRegion := getPropertyString p ["SUBREGION"]
      Province := getPropertyString p ["name"]
      ProvinceCode := getPropertyString p ["iso_3166_2"]
      City := trimSuffix (getPropertyString p ["name_conve"]) "2" }
  if p "TYPE" = some (Scalar.str "County") then
    { loc with County := getPropertyString p ["NAME"] }
  else loc

/-- The "Add city name" block of `Location.String` (src/unnamed/part_000
lines 445-448): append the city, with a trailing comma, when present. -/
def addCity (l : Location) (ret : String) : String :=
  if l.City ≠ "" then ret ++ " " ++ l.City ++ "," else ret

/-- The "Add province name" block (src/unnamed/part_000 lines 450-453). -/
def addProvince (l : Location) (ret : String) : String :=
  if l.Province ≠ "" then ret ++ " " ++ l.Province ++ "," else ret

/-- The "Add country name" block (src/unnamed/part_000 lines 455-460):
common name preferred, else formal name. -/
def addCountry (l : Location) (ret : String) : String :=
  if l.Country ≠ "" then ret ++ " " ++ l.Country
  else if l.CountryLong ≠ "" then ret ++ " " ++ l.CountryLong
  else ret

/-- The "Add country code in brackets" block (src/unnamed/part_000 lines
462-467): alpha-3 preferred, else alpha-2. -/
def addCountryCode (l : Location) (ret : String) : String :=
  if l.CountryCode3 ≠ "" then ret ++ " (" ++ l.CountryCode3 ++ ")"
  else if l.CountryCode2 ≠ "" then ret ++ " (" ++ l.CountryCode2 ++ ")"
  else ret

/-- The final switch of `Location.String` (src/unnamed/part_000 lines
474-481): append the first present of continent, region, subregion. -/
def addContinent (l : Location) (ret : String) : String :=
  if l.Continent ≠ "" then ret ++ " " ++ l.Continent
  else if l.Region ≠ "" then ret ++ " " ++ l.Region
  else if l.SubRegion ≠ "" then ret ++ " " ++ l.SubRegion
  else ret

/-- The accumulated string of `Location.String` before the comma check
(src/unnamed/part_000 lines 438-467): the sequential `ret +=` blocks applied
to the "<Location>" prefix. -/
def locationBody (l : Location) : String :=
  addCountryCode l (addCountry l (addProvince l (addCity l "<Location>")))

/-- The `Location.String` method (src/unnamed/part_000 lines 437-484): the
all-zero `Location` short-circuits to "<Location> Empty Location"; otherwise
after `locationBody`, a comma is appended whenever the accumulated string
grew past the prefix (`len(ret) > len("<Location>")`), and then the first
present of continent, region and subregion is appended. -/
def locationString (l : Location) : String :=
  if l = ({} : Location) then "<Location>" ++ " Empty Location"
  else
    let r4 := locationBody l
    addContinent l (if r4.length > ("<Location>" : String).length then r4 ++ "," else r4)

/-- The geometry-normalization errors (src/unnamed/part_000 lines 311, 354,
358): unsupported geometry kind, a ring with fewer than 4 points, and a ring
whose last coordinate differs from its first. -/
inductive GeomError where
  | unsupportedGeometry
  | tooFewPoints
  | unclosedRing
deriving DecidableEq

/-- The errors the package can return.  The Go code uses a sentinel error and
`fmt.Errorf` messages; each distinct message becomes a constructor carrying
the formatted-in context (dataset index or name); `badPolygon` wraps the
geometry error as the Go code wraps it with "bad polygon in geometry". -/
inductive RgeoError where
  | locationNotFound
  | noDataInDataset (i : ℕ)
  | decompressionFailed (i : ℕ)
  | invalidJSON (i : ℕ)
  | gzipCloseFailed (i : ℕ)
  | badPolygon (e : GeomError)
  | missingDatasetParameter
  | datasetNotFound (name : String)
  | noGeometryFound (name : String)
deriving DecidableEq

/-- The `Rgeo` engine state (src/unnamed/part_000 lines 99-104): the s2
shape index is modelled by the list of inserted handles, `locs` and `geoms`
by association lists keyed by handle (Go keys them by the polygon pointer).
The `query` field is the external s2 `ContainsPointQuery`; query functions
below take its result list as an argument. -/
structure Rgeo where
  index : List Shape
  locs : List (Shape × Location)
  geoms : List (String × List (Shape × Geometry))

/-- `r.locs[shape]`: Go map indexing yields the zero `Location` when the key
is absent. -/
def locFor (r : Rgeo) (s : Shape) : Location :=
  (assocFind r.locs s).getD {}

/-- The loop body of `combineLocations` (src/unnamed/part_000 lines
209-224): rebuild the accumulator taking, per field, the first non-empty of
the accumulated value and the current shape's value. -/
def combineStep (r : Rgeo) (l : Location) (shape : Shape) : Location :=
  let loc := locFor r shape
  { Country := firstNonEmpty [l.Country, loc.Country]
    CountryLong := firstNonEmpty [l.CountryLong, loc.CountryLong]
    CountryCode2 := firstNonEmpty [l.CountryCode2, loc.CountryCode2]
    CountryCode3 := firstNonEmpty [l.CountryCode3, loc.CountryCode3]
    Continent := firstNonEmpty [l.Continent, loc.Continent]
    Region := firstNonEmpty [l.Region, loc.Region]
    SubRegion := firstNonEmpty [l.SubRegion, loc.SubRegion]
    Province := firstNonEmpty [l.Province, loc.Province]
    ProvinceCode := firstNonEmpty [l.ProvinceCode, loc.ProvinceCode]
    County := firstNonEmpty [l.County, loc.County]
    City := firstNonEmpty [l.City, loc.City] }

/-- `combineLocations` (src/unnamed/part_000 lines 208-227) folds the shapes
in index result order starting from the zero `Location`. -/
def combineLocations (r : Rgeo) (s : List Shape) : Location :=
  s.foldl (combineStep r) {}

/-- `ReverseGeocode` (src/unnamed/part_000 lines 198-205).  `res` is the
result of `r.query.ContainingShapes(pointFromCoord loc)` — the external s2
containment query for the queried point, in index result order.  The Go
`(Location, error)` return becomes a pair with an optional error. -/
def ReverseGeocode (r : Rgeo) (res : List Shape) : Location × Option RgeoError :=
  if res.length = 0 then ({}, some RgeoError.locationNotFound)
  else (combineLocations r res, none)

/-- `LocationWithGeometry` (src/unnamed/part_000 lines 86-89); the
`orb.Geometry` interface field is `none` when nil (the zero value). -/
structure LocationWithGeometry where
  location : Location
  geometry : Option Geometry
deriving DecidableEq

/-- The geometry-assignment loop of `ReverseGeocodeWithGeometry`
(src/unnamed/part_000 lines 243-249): the first shape of `res` that has an
entry in the dataset's shape-to-geometry map supplies the geometry. -/
def findGeometry (shpGeom : List (Shape × Geometry)) : List Shape → Option Geometry
  | [] => none
  | s :: rest =>
    match assocFind shpGeom s with
    | some g => some g
    | none => findGeometry shpGeom rest

/-- `ReverseGeocodeWithGeometry` (src/unnamed/part_000 lines 229-251), with
`res` the external s2 containment-query result as in `ReverseGeocode`.  The
checks run in source order: empty result, empty dataset name, unregistered
dataset, then the geometry search. -/
def ReverseGeocodeWithGeometry (r : Rgeo) (res : List Shape) (dataset : String) :
    LocationWithGeometry × Option RgeoError :=
  if res.length = 0 then (⟨{}, none⟩, some RgeoError.locationNotFound)
  else if dataset = "" then (⟨{}, none⟩, some RgeoError.missingDatasetParameter)
  else
    match assocFind r.geoms dataset with
    | none => (⟨{}, none⟩, some (RgeoError.datasetNotFound dataset))
    | some shpGeom =>
      match findGeometry shpGeom res with
      | some g => (⟨combineLocations r res, some g⟩, none)
      | none => (⟨{}, none⟩, some (RgeoError.noGeometryFound dataset))

/-- An s2 point as produced by `pointFromCoord` (src/unnamed/part_000 lines
429-434): the external s2 conversion
`PointFromLatLng(LatLngFromDegrees(r.Y(), r.X()))` is modelled as a tagged
latitude/longitude record, keeping the source's latitude := y,
longitude := x swap observable. -/
structure S2Point where
  lat : ℚ
  lng : ℚ
deriving DecidableEq

/-- `pointFromCoord` (src/unnamed/part_000 lines 429-434, src/rgeo.go lines
324-329). -/
def pointFromCoord (r : Point) : S2Point :=
  { lat := r.y, lng := r.x }

/-- An s2 loop: the vertex list handed to `s2.LoopFromPoints`, plus an
`inverted` flag abstracting the interior/exterior complement that the
external `s2.Loop.Invert` performs in place. -/
structure S2Loop where
  vertices : List S2Point
  inverted : Bool
deriving DecidableEq

/-- `s2.LoopFromPoints`: a freshly built loop, not inverted. -/
def LoopFromPoints (pts : List S2Point) : S2Loop :=
  { vertices := pts, inverted := false }

/-- `s2.Loop.Invert`: complements the region represented by the loop in
place; the vertex data is not rebuilt. -/
def invertLoop (l : S2Loop) : S2Loop :=
  { l with inverted := !l.inverted }

/-- `loopFromRing` (src/unnamed/part_000 lines 407-426, src/rgeo.go lines
302-321): build the n-1 loop points, skipping the duplicated closing point;
index i reads `r[n-1-i]` when reversing, else `r[i]`.  Out-of-range reads
(impossible for the indices produced) are given the zero coordinate where Go
would panic. -/
def loopFromRing (r : List Point) (reverse : Bool) : S2Loop :=
  let n := r.length
  LoopFromPoints ((List.range (n - 1)).map fun i =>
    pointFromCoord (if reverse then r.getD (n - 1 - i) ⟨0, 0⟩ else r.getD i ⟨0, 0⟩))

/-- The planar area accumulation of `orb.Ring.Orientation` (external
dependency github.com/paulmach/orb v0.11.1, ring.go): with the ring's first
point as origin offset, accumulate the cross products
`(r[i].x - offsetX) * (r[i+1].y - offsetY) - (r[i+1].x - offsetX) * (r[i].y - offsetY)`
for i = 1 .. len-2 — the pairs `(r[i], r[i+1])` are the consecutive pairs of
the tail — which is the doubled signed area of the implicitly closed ring.
(Go reads `r[0]` for the offset and would panic on an empty ring; the empty
case yields 0 here and is unreachable from validated rings.) -/
def orbRingArea : List Point → ℚ
  | [] => 0
  | p0 :: rest =>
    ((rest.zip rest.tail).map fun pq =>
      (pq.1.x - p0.x) * (pq.2.y - p0.y) - (pq.2.x - p0.x) * (pq.1.y - p0.y)).sum

/-- `orb.Ring.Orientation` (external dependency github.com/paulmach/orb
v0.11.1, ring.go): returns 1 (CCW) when the area accumulation is positive,
-1 (CW) when negative, 0 when degenerate. -/
def ringOrientation (r : List Point) : Int :=
  if 0 < orbRingArea r then 1
  else if orbRingArea r < 0 then -1
  else 0

/-- `isClockwise` (src/unnamed/part_000 lines 389-404):
`r.Orientation() == -1`. -/
def isClockwise (r : List Point) : Bool :=
  ringOrientation r == -1

/-- The explicit shoelace accumulation of `isClockwise` in src/rgeo.go
(lines 285-299): for i in 0..n-1 the pair is `(r[i], r[(i+1) % n])` — i.e.
`zip r (r.rotate 1)` — and the accumulated term is
`(p2.X - p1.X) * (p1.Y + p2.Y)`. -/
def shoelaceSum (r : List Point) : ℚ :=
  ((r.zip (r.rotate 1)).map fun pq => (pq.2.x - pq.1.x) * (pq.1.y + pq.2.y)).sum

/-- `isClockwise` (src/rgeo.go lines 285-299): the shoelace sum is
positive. -/
def isClockwiseShoelace (r : List Point) : Bool :=
  decide (0 < shoelaceSum r)

/-- The per-ring body of `loopSliceFromPolygon` (src/unnamed/part_000 lines
349-377): reject short and unclosed rings, build the loop reversed when the
planar winding test says clockwise, then invert it in place when the
external s2 cap-bound test fires.  The test
`l.CapBound().Radius().Degrees() > 90` is external s2 floating-point
geometry, so the normalizer is parameterized by it (`capGT90`). -/
def normalizeRing (capGT90 : S2Loop → Bool) (r : List Point) : Except GeomError S2Loop :=
  let n := r.length
  if n < 4 then Except.error GeomError.tooFewPoints
  else if ¬ r.getD 0 ⟨0, 0⟩ = r.getD (n - 1) ⟨0, 0⟩ then Except.error GeomError.unclosedRing
  else
    let l := loopFromRing r (isClockwise r)
    Except.ok (if capGT90 l then invertLoop l else l)

/-- `loopSliceFromPolygon` (src/unnamed/part_000 lines 346-381, src/rgeo.go
lines 242-277): normalize each ring in order, aborting with the first
ring's error; on success the loops are collected in ring order. -/
def loopSliceFromPolygon (capGT90 : S2Loop → Bool) :
    List (List Point) → Except GeomError (List S2Loop)
  | [] => Except.ok []
  | r :: rs =>
    match normalizeRing capGT90 r with
    | Except.error e => Except.error e
    | Except.ok l =>
      match loopSliceFromPolygon capGT90 rs with
      | Except.error e => Except.error e
      | Except.ok ls => Except.ok (l :: ls)

/-- `polygonFromMultiPolygon` (src/unnamed/part_000 lines 322-335):
concatenate the loop slices of the constituent polygons, aborting on the
first error. -/
def polygonFromMultiPolygon (capGT90 : S2Loop → Bool) :
    List (List (List Point)) → Except GeomError (List S2Loop)
  | [] => Except.ok []
  | p :: ps =>
    match loopSliceFromPolygon capGT90 p with
    | Except.error e => Except.error e
    | Except.ok this =>
      match polygonFromMultiPolygon capGT90 ps with
      | Except.error e => Except.error e
      | Except.ok rest => Except.ok (this ++ rest)

/-- `polygonFromGeometry` (src/unnamed/part_000 lines 299-319): dispatch on
the geometry kind; anything but Polygon or MultiPolygon is rejected.  The
resulting s2 polygon (`s2.PolygonFromLoops`) is modelled by its loop list. -/
def polygonFromGeometry (capGT90 : S2Loop → Bool) : Geometry → Except GeomError (List S2Loop)
  | Geometry.polygon p => loopSliceFromPolygon capGT90 p
  | Geometry.multiPolygon mp => polygonFromMultiPolygon capGT90 mp
  | Geometry.other => Except.error GeomError.unsupportedGeometry

/-- A decoded GeoJSON feature: geometry plus the properties mapping
(string key to scalar). -/
structure Feature where
  geometry : Geometry
  properties : String → Option Scalar

/-- The observable outcome of reading one loader's byte payload in `New`
(src/unnamed/part_000 lines 131-149).  Reading the bytes, gzip decompression
and JSON decoding are external collaborators; a payload is modelled by which
of the source's four sequential checks it trips, or by the feature list it
decodes to: `empty` (zero-length payload), `badGzip` (`gzip.NewReader`
fails), `badJson` (JSON decode fails), `badClose` (decodes, but closing the
gzip reader fails), `decoded` (everything succeeds). -/
inductive Payload where
  | empty
  | badGzip
  | badJson
  | badClose (fs : List Feature)
  | decoded (fs : List Feature)

/-- One dataset argument of `New`: the Go loader is a function value whose
name is derived by `getFunctionName`; the name is made explicit here, and
the payload carries the loader's observable outcome. -/
structure Loader where
  name : String
  payload : Payload

/-- The dataset-registration step of `New` (src/unnamed/part_000 lines
153-158): ensure `ret.geoms[datasetName]` exists, creating an empty inner
map when the name is new. -/
def registerDataset (gs : List (String × List (Shape × Geometry))) (name : String) :
    List (String × List (Shape × Geometry)) :=
  if (assocFind gs name).isSome then gs else gs ++ [(name, [])]

/-- `ret.geoms[datasetName][p] = c.Geometry` (src/unnamed/part_000 line
165): append the handle-geometry pair to the named dataset's inner map
(always called after `registerDataset`, so the name is present). -/
def geomsInsert (gs : List (String × List (Shape × Geometry))) (name : String)
    (h : Shape) (g : Geometry) : List (String × List (Shape × Geometry)) :=
  gs.map fun kv => if kv.1 = name then (kv.1, kv.2 ++ [(h, g)]) else kv

/-- The per-feature loop of `New` (src/unnamed/part_000 lines 159-174):
convert the geometry (aborting construction on failure), store the geometry
under the loader's dataset name, add the shape to the index, and record the
`Location` extracted from the properties.  `h` is the next fresh shape
handle (Go: the fresh `*s2.Polygon` pointer). -/
def ingestFeatures (capGT90 : S2Loop → Bool) (name : String) :
    List Feature → Shape → Rgeo → Except RgeoError (Rgeo × Shape)
  | [], h, r => Except.ok (r, h)
  | f :: fs, h, r =>
    match polygonFromGeometry capGT90 f.geometry with
    | Except.error e => Except.error (RgeoError.badPolygon e)
    | Except.ok _ =>
      ingestFeatures capGT90 name fs (h + 1)
        { index := r.index ++ [h]
          locs := r.locs ++ [(h, getLocationStrings f.properties)]
          geoms := geomsInsert r.geoms name h f.geometry }

/-- The loader loop of `New` (src/unnamed/part_000 lines 130-175): `i` is
the loader index used in the error messages, `h` the next fresh shape
handle.  The four payload checks run in source order before the features
are ingested. -/
def buildLoaders (capGT90 : S2Loop → Bool) :
    List Loader → ℕ → Shape → Rgeo → Except RgeoError Rgeo
  | [], _, _, r => Except.ok r
  | ld :: lds, i, h, r =>
    match ld.payload with
    | Payload.empty => Except.error (RgeoError.noDataInDataset i)
    | Payload.badGzip => Except.error (RgeoError.decompressionFailed i)
    | Payload.badJson => Except.error (RgeoError.invalidJSON i)
    | Payload.badClose _ => Except.error (RgeoError.gzipCloseFailed i)
    | Payload.decoded fs =>
      match ingestFeatures capGT90 ld.name fs h { r with geoms := registerDataset r.geoms ld.name } with
      | Except.error e => Except.error e
      | Except.ok (r2, h2) => buildLoaders capGT90 lds (i + 1) h2 r2

/-- `New` (src/unnamed/part_000 lines 120-180): build the engine from the
loaders starting from the empty state; the Go `(nil, err)` return on any
failure is the `Except.error` case, so no partial engine escapes. -/
def New (capGT90 : S2Loop → Bool) (loaders : List Loader) : Except RgeoError Rgeo :=
  buildLoaders capGT90 loaders 0 0 { index := [], locs := [], geoms := [] }

/-- A loader ingests completely iff its payload decodes (all four payload
checks pass) and every feature's geometry converts. -/
def loaderOK (capGT90 : S2Loop → Bool) (ld : Loader) : Bool :=
  match ld.payload with
  | Payload.decoded fs => fs.all fun f => (polygonFromGeometry capGT90 f.geometry).isOk
  | _ => false

/-! ## Helper lemmas -/

lemma getPropertyString_eq_head (m : String → Option Scalar) :
    ∀ keys : List String,
      getPropertyString m keys = ((keys.filterMap fun j => asString (m j)).headD "") := by
  intro keys
  induction keys with
  | nil => rfl
  | cons k ks ih =>
    rw [getPropertyString, List.filterMap_cons]
    cases h : asString (m k) with
    | none => exact ih
    | some s => rfl

lemma getPropertyString_skip_key (m : String → Option Scalar) (k : String)
    (hk : asString (m k) = none) :
    ∀ keys : List String,
      getPropertyString m keys
        = getPropertyString (fun j => if j = k then none else m j) keys := by
  intro keys
  induction keys with
  | nil => rfl
  | cons k2 ks ih =>
    rw [getPropertyString, getPropertyString]
    by_cases h2 : k2 = k
    · rw [h2, hk]
      show getPropertyString m ks = match asString (if k = k then none else m k) with
        | some s => s
        | none => getPropertyString (fun j => if j = k then none else m j) ks
      rw [if_pos rfl, ih]
      rfl
    · show _ = match asString (if k2 = k then none else m k2) with
        | some s => s
        | none => getPropertyString (fun j => if j = k then none else m j) ks
      rw [if_neg h2]
      cases h : asString (m k2) with
      | none => exact ih
      | some s => rfl

lemma strLengthPos (s : String) (h : s ≠ "") : 0 < s.length := by
  rcases s with ⟨data⟩
  cases data with
  | nil => exact absurd rfl h
  | cons c cs => simp [String.length]

lemma addCity_length_le (l : Location) (ret : String) :
    ret.length ≤ (addCity l ret).length := by
  unfold addCity
  split_ifs <;> simp [String.length_append] <;> omega

lemma addProvince_length_le (l : Location) (ret : String) :
    ret.length ≤ (addProvince l ret).length := by
  unfold addProvince
  split_ifs <;> simp [String.length_append] <;> omega

lemma addCountry_length_le (l : Location) (ret : String) :
    ret.length ≤ (addCountry l ret).length := by
  unfold addCountry
  split_ifs <;> simp [String.length_append] <;> omega

lemma addCountryCode_length_le (l : Location) (ret : String) :
    ret.length ≤ (addCountryCode l ret).length := by
  unfold addCountryCode
  split_ifs <;> simp [String.length_append] <;> omega

lemma locationBody_length_gt (l : Location)
    (hemit : l.City ≠ "" ∨ l.Province ≠ "" ∨ l.Country ≠ "" ∨ l.CountryLong ≠ "" ∨
      l.CountryCode3 ≠ "" ∨ l.CountryCode2 ≠ "") :
    ("<Location>" : String).length < (locationBody l).length := by
  unfold locationBody
  have hL : ("<Location>" : String).length = 10 := rfl
  have hLs : ("<Location> " : String).length = 11 := rfl
  have hsp : (" " : String).length = 1 := rfl
  have hcm : ("," : String).length = 1 := rfl
  have hpo : (" (" : String).length = 2 := rfl
  have hpc : (")" : String).length = 1 := rfl
  rcases hemit with h | h | h | h | h | h
  · refine lt_of_lt_of_le (lt_of_lt_of_le ?_ (addCountry_length_le l _))
      (addCountryCode_length_le l _)
    refine lt_of_lt_of_le ?_ (addProvince_length_le l _)
    unfold addCity
    rw [if_pos h]
    have hp := strLengthPos l.City h
    simp only [String.length_append]
    omega
  · refine lt_of_lt_of_le (lt_of_lt_of_le ?_ (addCountry_length_le l _))
      (addCountryCode_length_le l _)
    refine lt_of_le_of_lt (addCity_length_le l _) ?_
    unfold addProvince
    rw [if_pos h]
    have hp := strLengthPos l.Province h
    simp only [String.length_append]
    omega
  · refine lt_of_lt_of_le ?_ (addCountryCode_length_le l _)
    refine lt_of_le_of_lt (le_trans (addCity_length_le l _) (addProvince_length_le l _)) ?_
    unfold addCountry
    rw [if_pos h]
    have hp := strLengthPos l.Country h
    simp only [String.length_append]
    omega
  · refine lt_of_lt_of_le ?_ (addCountryCode_length_le l _)
    refine lt_of_le_of_lt (le_trans (addCity_length_le l _) (addProvince_length_le l _)) ?_
    unfold addCountry
    by_cases hc : l.Country ≠ ""
    · rw [if_pos hc]
      have hp := strLengthPos l.Country hc
      simp only [String.length_append]
      omega
    · rw [if_neg hc, if_pos h]
      have hp := strLengthPos l.CountryLong h
      simp only [String.length_append]
      omega
  · refine lt_of_le_of_lt (le_trans (le_trans (addCity_length_le l _)
      (addProvince_length_le l _)) (addCountry_length_le l _)) ?_
    unfold addCountryCode
    rw [if_pos h]
    have hp := strLengthPos l.CountryCode3 h
    simp only [String.length_append]
    omega
  · refine lt_of_le_of_lt (le_trans (le_trans (addCity_length_le l _)
      (addProvince_length_le l _)) (addCountry_length_le l _)) ?_
    unfold addCountryCode
    by_cases hc : l.CountryCode3 ≠ ""
    · rw [if_pos hc]
      have hp := strLengthPos l.CountryCode3 hc
      simp only [String.length_append]
      omega
    · rw [if_neg hc, if_pos h]
      have hp := strLengthPos l.CountryCode2 h
      simp only [String.length_append]
      omega

lemma addContinent_all_empty (l : Location) (ret : String)
    (hc : l.Continent = "") (hr : l.Region = "") (hs : l.SubRegion = "") :
    addContinent l ret = ret := by
  unfold addContinent
  simp [hc, hr, hs]

lemma locationString_comma (l : Location) (hne : l ≠ ({} : Location))
    (hc : l.Continent = "") (hr : l.Region = "") (hs : l.SubRegion = "")
    (hemit : l.City ≠ "" ∨ l.Province ≠ "" ∨ l.Country ≠ "" ∨ l.CountryLong ≠ "" ∨
      l.CountryCode3 ≠ "" ∨ l.CountryCode2 ≠ "") :
    locationString l = locationBody l ++ "," := by
  unfold locationString
  rw [if_neg hne, addContinent_all_empty l _ hc hr hs,
    if_pos (locationBody_length_gt l hemit)]

lemma firstNonEmpty_empty_cons (l : List String) :
    firstNonEmpty ("" :: l) = firstNonEmpty l := by
  simp [firstNonEmpty]

lemma firstNonEmpty_pair_cons (a b : String) (l : List String) :
    firstNonEmpty (firstNonEmpty [a, b] :: l) = firstNonEmpty (a :: b :: l) := by
  by_cases ha : a = "" <;> by_cases hb : b = "" <;> simp [firstNonEmpty, ha, hb]

lemma firstNonEmpty_emptyPair (x : String) : firstNonEmpty ["", x] = x := by
  by_cases h : x = "" <;> simp [firstNonEmpty, h]

lemma foldl_combineStep_proj (r : Rgeo) (proj : Location → String)
    (hstep : ∀ (l : Location) (sh : Shape),
      proj (combineStep r l sh) = firstNonEmpty [proj l, proj (locFor r sh)]) :
    ∀ (s : List Shape) (init : Location),
      proj (s.foldl (combineStep r) init)
        = firstNonEmpty (proj init :: s.map fun sh => proj (locFor r sh)) := by
  intro s
  induction s with
  | nil =>
    intro init
    by_cases h : proj init = "" <;> simp [firstNonEmpty, h]
  | cons sh s ih =>
    intro init
    rw [List.foldl_cons, ih, hstep, List.map_cons, firstNonEmpty_pair_cons]

lemma combineLocations_proj (r : Rgeo) (s : List Shape) (proj : Location → String)
    (hzero : proj ({} : Location) = "")
    (hstep : ∀ (l : Location) (sh : Shape),
      proj (combineStep r l sh) = firstNonEmpty [proj l, proj (locFor r sh)]) :
    proj (combineLocations r s) = firstNonEmpty (s.map fun sh => proj (locFor r sh)) := by
  have h := foldl_combineStep_proj r proj hstep s ({} : Location)
  rw [combineLocations, h, hzero, firstNonEmpty_empty_cons]

lemma combineLocations_single (r : Rgeo) (sh : Shape) :
    combineLocations r [sh] = locFor r sh := by
  show combineStep r {} sh = locFor r sh
  unfold combineStep
  simp only [firstNonEmpty_emptyPair]

lemma range_map_getD_eq_take (l : List Point) (k : ℕ) (hk : k ≤ l.length) :
    (List.range k).map (fun i => l.getD i ⟨0, 0⟩) = l.take k := by
  apply List.ext_getElem
  · simp
    omega
  · intro i h1 h2
    simp only [List.getElem_map, List.getElem_range, List.getElem_take]
    have hi : i < l.length := by
      simp only [List.length_map, List.length_range] at h1
      omega
    exact List.getD_eq_getElem l ⟨0, 0⟩ hi

lemma zip_cons_append {α : Type} (l : List α) :
    ∀ a x : α, (a :: l).zip (l ++ [x]) = (a :: l).zip l ++ [(l.getLastD a, x)] := by
  induction l with
  | nil => intro a x; rfl
  | cons b l ih =>
    intro a x
    show (a, b) :: (b :: l).zip (l ++ [x]) = (a, b) :: (b :: l).zip l ++ [((b :: l).getLastD a, x)]
    rw [ih b x, List.getLastD_cons]
    rfl

lemma shoelace_path_sum :
    ∀ (l : List Point) (a : Point),
      (((a :: l).zip l).map fun pq => (pq.2.x - pq.1.x) * (pq.1.y + pq.2.y)).sum
        = -((((a :: l).zip l).map fun pq => pq.1.x * pq.2.y - pq.2.x * pq.1.y).sum)
          + ((l.getLastD a).x * (l.getLastD a).y - a.x * a.y) := by
  intro l
  induction l with
  | nil => intro a; simp
  | cons b l ih =>
    intro a
    simp only [List.zip_cons_cons, List.map_cons, List.sum_cons, List.getLastD_cons]
    rw [ih b]
    ring

lemma fan_cross_sum (p0 : Point) :
    ∀ (l : List Point) (a : Point),
      (((a :: l).zip l).map fun pq =>
          (pq.1.x - p0.x) * (pq.2.y - p0.y) - (pq.2.x - p0.x) * (pq.1.y - p0.y)).sum
        = (((a :: l).zip l).map fun pq => pq.1.x * pq.2.y - pq.2.x * pq.1.y).sum
          + (p0.x * a.y - a.x * p0.y)
          - (p0.x * (l.getLastD a).y - (l.getLastD a).x * p0.y) := by
  intro l
  induction l with
  | nil => intro a; simp
  | cons b l ih =>
    intro a
    simp only [List.zip_cons_cons, List.map_cons, List.sum_cons, List.getLastD_cons]
    rw [ih b]
    ring

lemma shoelaceSum_eq_neg_orbRingArea (r : List Point) :
    shoelaceSum r = -orbRingArea r := by
  cases r with
  | nil => simp [shoelaceSum, orbRingArea]
  | cons p0 rest =>
    unfold shoelaceSum
    rw [show (1 : ℕ) = 0 + 1 from rfl, List.rotate_cons_succ, List.rotate_zero]
    rw [zip_cons_append, List.map_append, List.sum_append]
    rw [shoelace_path_sum rest p0]
    cases rest with
    | nil =>
      simp [orbRingArea]
    | cons b l =>
      simp only [orbRingArea, List.tail_cons]
      rw [fan_cross_sum p0 l b]
      simp only [List.zip_cons_cons, List.map_cons, List.sum_cons, List.map_nil,
        List.sum_nil, List.getLastD_cons]
      ring

lemma isOk_ok {ε α : Type} (v : α) : (Except.ok v : Except ε α).isOk = true := rfl

lemma isOk_error {ε α : Type} (e : ε) : (Except.error e : Except ε α).isOk = false := rfl

lemma exceptOk_exists {ε α : Type} (x : Except ε α) (h : x.isOk = true) :
    ∃ v, x = Except.ok v := by
  cases x with
  | ok v => exact ⟨v, rfl⟩
  | error e => rw [isOk_error] at h; cases h

lemma ingestFeatures_cons_error (capGT90 : S2Loop → Bool) (name : String)
    (f : Feature) (fs : List Feature) (h : Shape) (r : Rgeo) (e : GeomError)
    (hp : polygonFromGeometry capGT90 f.geometry = Except.error e) :
    ingestFeatures capGT90 name (f :: fs) h r = Except.error (RgeoError.badPolygon e) := by
  rw [ingestFeatures, hp]

lemma ingestFeatures_cons_ok (capGT90 : S2Loop → Bool) (name : String)
    (f : Feature) (fs : List Feature) (h : Shape) (r : Rgeo) (v : List S2Loop)
    (hp : polygonFromGeometry capGT90 f.geometry = Except.ok v) :
    ingestFeatures capGT90 name (f :: fs) h r
      = ingestFeatures capGT90 name fs (h + 1)
          { index := r.index ++ [h]
            locs := r.locs ++ [(h, getLocationStrings f.properties)]
            geoms := geomsInsert r.geoms name h f.geometry } := by
  rw [ingestFeatures, hp]

lemma ingestFeatures_isOk (capGT90 : S2Loop → Bool) (name : String) :
    ∀ (fs : List Feature) (h : Shape) (r : Rgeo),
      (ingestFeatures capGT90 name fs h r).isOk
        = fs.all fun f => (polygonFromGeometry capGT90 f.geometry).isOk := by
  intro fs
  induction fs with
  | nil => intro h r; rfl
  | cons f fs ih =>
    intro h r
    rw [List.all_cons]
    cases hp : polygonFromGeometry capGT90 f.geometry with
    | error e =>
      rw [ingestFeatures_cons_error capGT90 name f fs h r e hp, isOk_error, isOk_error]
      rfl
    | ok v =>
      rw [ingestFeatures_cons_ok capGT90 name f fs h r v hp, ih, isOk_ok, Bool.true_and]

lemma buildLoaders_cons_decoded_error (capGT90 : S2Loop → Bool) (ld : Loader)
    (lds : List Loader) (i : ℕ) (h : Shape) (r : Rgeo) (fs : List Feature) (e : RgeoError)
    (hp : ld.payload = Payload.decoded fs)
    (hi : ingestFeatures capGT90 ld.name fs h { r with geoms := registerDataset r.geoms ld.name }
      = Except.error e) :
    buildLoaders capGT90 (ld :: lds) i h r = Except.error e := by
  rw [buildLoaders, hp]
  show (match ingestFeatures capGT90 ld.name fs h
      { r with geoms := registerDataset r.geoms ld.name } with
    | Except.error e => Except.error e
    | Except.ok (r2, h2) => buildLoaders capGT90 lds (i + 1) h2 r2) = Except.error e
  rw [hi]

lemma buildLoaders_cons_decoded_ok (capGT90 : S2Loop → Bool) (ld : Loader)
    (lds : List Loader) (i : ℕ) (h : Shape) (r r2 : Rgeo) (fs : List Feature) (h2 : Shape)
    (hp : ld.payload = Payload.decoded fs)
    (hi : ingestFeatures capGT90 ld.name fs h { r with geoms := registerDataset r.geoms ld.name }
      = Except.ok (r2, h2)) :
    buildLoaders capGT90 (ld :: lds) i h r = buildLoaders capGT90 lds (i + 1) h2 r2 := by
  rw [buildLoaders, hp]
  show (match ingestFeatures capGT90 ld.name fs h
      { r with geoms := registerDataset r.geoms ld.name } with
    | Except.error e => Except.error e
    | Except.ok (r2, h2) => buildLoaders capGT90 lds (i + 1) h2 r2)
    = buildLoaders capGT90 lds (i + 1) h2 r2
  rw [hi]

lemma loaderOK_decoded (capGT90 : S2Loop → Bool) (ld : Loader)
    (h : loaderOK capGT90 ld = true) :
    ∃ fs, ld.payload = Payload.decoded fs
      ∧ (fs.all fun f => (polygonFromGeometry capGT90 f.geometry).isOk) = true := by
  unfold loaderOK at h
  cases hp : ld.payload with
  | decoded fs => exact ⟨fs, rfl, by rw [hp] at h; exact h⟩
  | empty => rw [hp] at h; cases h
  | badGzip => rw [hp] at h; cases h
  | badJson => rw [hp] at h; cases h
  | badClose fs => rw [hp] at h; cases h

lemma buildLoaders_isOk (capGT90 : S2Loop → Bool) :
    ∀ (lds : List Loader) (i : ℕ) (h : Shape) (r : Rgeo),
      (buildLoaders capGT90 lds i h r).isOk = lds.all (loaderOK capGT90) := by
  intro lds
  induction lds with
  | nil => intro i h r; rfl
  | cons ld lds ih =>
    intro i h r
    rw [List.all_cons]
    cases hp : ld.payload with
    | empty =>
      rw [buildLoaders, hp, isOk_error]
      simp [loaderOK, hp]
    | badGzip =>
      rw [buildLoaders, hp, isOk_error]
      simp [loaderOK, hp]
    | badJson =>
      rw [buildLoaders, hp, isOk_error]
      simp [loaderOK, hp]
    | badClose fs =>
      rw [buildLoaders, hp, isOk_error]
      simp [loaderOK, hp]
    | decoded fs =>
      have hok := ingestFeatures_isOk capGT90 ld.name fs h
        { r with geoms := registerDataset r.geoms ld.name }
      cases hi : ingestFeatures capGT90 ld.name fs h
          { r with geoms := registerDataset r.geoms ld.name } with
      | error e =>
        rw [hi, isOk_error] at hok
        rw [buildLoaders_cons_decoded_error capGT90 ld lds i h r fs e hp hi, isOk_error]
        simp [loaderOK, hp, ← hok]
      | ok v =>
        obtain ⟨r2, h2⟩ := v
        rw [hi, isOk_ok] at hok
        rw [buildLoaders_cons_decoded_ok capGT90 ld lds i h r r2 fs h2 hp hi, ih]
        simp [loaderOK, hp, ← hok]

lemma buildLoaders_append_ok (capGT90 : S2Loop → Bool) :
    ∀ (pre : List Loader), (∀ ld2 ∈ pre, loaderOK capGT90 ld2 = true) →
      ∀ (rest : List Loader) (i : ℕ) (h : Shape) (r : Rgeo),
        ∃ (h2 : Shape) (r2 : Rgeo),
          buildLoaders capGT90 (pre ++ rest) i h r
            = buildLoaders capGT90 rest (i + pre.length) h2 r2 := by
  intro pre
  induction pre with
  | nil =>
    intro _ rest i h r
    exact ⟨h, r, by simp⟩
  | cons ld pre ih =>
    intro hall rest i h r
    obtain ⟨fs, hfs, hallf⟩ := loaderOK_decoded capGT90 ld (hall ld (List.mem_cons_self ld pre))
    have hok : (ingestFeatures capGT90 ld.name fs h
        { r with geoms := registerDataset r.geoms ld.name }).isOk = true := by
      rw [ingestFeatures_isOk]
      exact hallf
    obtain ⟨⟨r2, h2⟩, hi⟩ := exceptOk_exists _ hok
    have hpre : ∀ ld2 ∈ pre, loaderOK capGT90 ld2 = true := by
      intro ld2 hld2
      exact hall ld2 (List.mem_cons_of_mem ld hld2)
    obtain ⟨h3, r3, hrec⟩ := ih hpre rest (i + 1) h2 r2
    refine ⟨h3, r3, ?_⟩
    rw [List.cons_append,
      buildLoaders_cons_decoded_ok capGT90 ld (pre ++ rest) i h r r2 fs h2 hfs hi, hrec]
    have harith : i + 1 + pre.length = i + (ld :: pre).length := by
      simp only [List.length_cons]
      omega
    rw [harith]

lemma findGeometry_eq_head (m : List (Shape × Geometry)) :
    ∀ res : List Shape,
      findGeometry m res = (res.filterMap fun s => assocFind m s).head? := by
  intro res
  induction res with
  | nil => rfl
  | cons s rest ih =>
    rw [findGeometry, List.filterMap_cons]
    cases h : assocFind m s with
    | none => exact ih
    | some g => rfl

lemma normalizeRing_bad_error (capGT90 : S2Loop → Bool) (r : List Point)
    (hbad : r.length < 4 ∨ ¬ r.getD 0 ⟨0, 0⟩ = r.getD (r.length - 1) ⟨0, 0⟩) :
    ∃ e, normalizeRing capGT90 r = Except.error e := by
  unfold normalizeRing
  by_cases h4 : r.length < 4
  · exact ⟨GeomError.tooFewPoints, by rw [if_pos h4]⟩
  · rcases hbad with h | h
    · exact absurd h h4
    · exact ⟨GeomError.unclosedRing, by rw [if_neg h4, if_pos h]⟩

lemma loopSlice_mem_error (capGT90 : S2Loop → Bool) (r : List Point)
    (herr : ∃ e, normalizeRing capGT90 r = Except.error e) :
    ∀ p : List (List Point), r ∈ p →
      ∃ e, loopSliceFromPolygon capGT90 p = Except.error e := by
  intro p
  induction p with
  | nil => intro hmem; cases hmem
  | cons q qs ih =>
    intro hmem
    rw [loopSliceFromPolygon]
    rcases List.mem_cons.1 hmem with hq | hq
    · obtain ⟨e, he⟩ := herr
      rw [← hq] at *
      rw [he]
      exact ⟨e, rfl⟩
    · cases hn : normalizeRing capGT90 q with
      | error e => exact ⟨e, rfl⟩
      | ok l =>
        obtain ⟨e, he⟩ := ih hq
        rw [he]
        exact ⟨e, rfl⟩

/-! ## Claim theorems -/

/-- C1: for every point whose spatial-index query returns a non-empty list
of shapes, `ReverseGeocode` succeeds with the fold of the matched shapes'
Locations in the index's result order under left-biased per-field override:
each field of the result is the first non-empty value for that field across
the matches (so a field set by an earlier match is never overwritten by a
later one), and with exactly one match the result is that shape's
`Location` unchanged. -/
theorem reverseGeocode_left_biased_merge (r : Rgeo) (res : List Shape) (h : res ≠ []) :
    ReverseGeocode r res = (combineLocations r res, none)
    ∧ (combineLocations r res).Country
        = firstNonEmpty (res.map fun sh => (locFor r sh).Country)
    ∧ (combineLocations r res).CountryLong
        = firstNonEmpty (res.map fun sh => (locFor r sh).CountryLong)
    ∧ (combineLocations r res).CountryCode2
        = firstNonEmpty (res.map fun sh => (locFor r sh).CountryCode2)
    ∧ (combineLocations r res).CountryCode3
        = firstNonEmpty (res.map fun sh => (locFor r sh).CountryCode3)
    ∧ (combineLocations r res).Continent
        = firstNonEmpty (res.map fun sh => (locFor r sh).Continent)
    ∧ (combineLocations r res).Region
        = firstNonEmpty (res.map fun sh => (locFor r sh).Region)
    ∧ (combineLocations r res).SubRegion
        = firstNonEmpty (res.map fun sh => (locFor r sh).SubRegion)
    ∧ (combineLocations r res).Province
        = firstNonEmpty (res.map fun sh => (locFor r sh).Province)
    ∧ (combineLocations r res).ProvinceCode
        = firstNonEmpty (res.map fun sh => (locFor r sh).ProvinceCode)
    ∧ (combineLocations r res).County
        = firstNonEmpty (res.map fun sh => (locFor r sh).County)
    ∧ (combineLocations r res).City
        = firstNonEmpty (res.map fun sh => (locFor r sh).City)
    ∧ ∀ sh : Shape, res = [sh] → ReverseGeocode r res = (locFor r sh, none) := by
  have hlen : ¬ res.length = 0 := by
    cases res with
    | nil => exact absurd rfl h
    | cons a l => simp
  refine ⟨?_, ?_, ?_, ?_, ?_, ?_, ?_, ?_, ?_, ?_, ?_, ?_, ?_⟩
  · unfold ReverseGeocode
    rw [if_neg hlen]
  · exact combineLocations_proj r res (fun l => l.Country) rfl (fun l sh => rfl)
  · exact combineLocations_proj r res (fun l => l.CountryLong) rfl (fun l sh => rfl)
  · exact combineLocations_proj r res (fun l => l.CountryCode2) rfl (fun l sh => rfl)
  · exact combineLocations_proj r res (fun l => l.CountryCode3) rfl (fun l sh => rfl)
  · exact combineLocations_proj r res (fun l => l.Continent) rfl (fun l sh => rfl)
  · exact combineLocations_proj r res (fun l => l.Region) rfl (fun l sh => rfl)
  · exact combineLocations_proj r res (fun l => l.SubRegion) rfl (fun l sh => rfl)
  · exact combineLocations_proj r res (fun l => l.Province) rfl (fun l sh => rfl)
  · exact combineLocations_proj r res (fun l => l.ProvinceCode) rfl (fun l sh => rfl)
  · exact combineLocations_proj r res (fun l => l.County) rfl (fun l sh => rfl)
  · exact combineLocations_proj r res (fun l => l.City) rfl (fun l sh => rfl)
  · intro sh hsh
    subst hsh
    unfold ReverseGeocode
    rw [if_neg hlen, combineLocations_single]

/-- Witness for C1: a concrete engine with one registered shape and a
single-match query result. -/
theorem reverseGeocode_left_biased_merge_witness :
    ([0] : List Shape) ≠ []
    ∧ ReverseGeocode ⟨[0], [(0, { Country := "Testland" })], []⟩ [0]
        = (combineLocations ⟨[0], [(0, { Country := "Testland" })], []⟩ [0], none) :=
  ⟨by decide,
    (reverseGeocode_left_biased_merge ⟨[0], [(0, { Country := "Testland" })], []⟩ [0]
      (by decide)).1⟩

/-- C2: for every valid closed ring of length n ≥ 4 that passes
normalization, the constructed loop's point sequence has length n-1 (the
duplicated closing point is dropped), and when the ring is not reversed the
loop's points are the images of the ring's first n-1 points in order. -/
theorem loopFromRing_drops_closing_point (r : List Point) (rev : Bool)
    (h4 : 4 ≤ r.length) (hcl : r.head? = r.getLast?) :
    (loopFromRing r rev).vertices.length = r.length - 1
    ∧ (loopFromRing r false).vertices = (r.take (r.length - 1)).map pointFromCoord := by
  constructor
  · show ((List.range (r.length - 1)).map _).length = r.length - 1
    rw [List.length_map, List.length_range]
  · have hv : (loopFromRing r false).vertices
        = (List.range (r.length - 1)).map fun i => pointFromCoord (r.getD i ⟨0, 0⟩) := by
      simp [loopFromRing, LoopFromPoints]
    rw [hv, ← range_map_getD_eq_take r (r.length - 1) (by omega), List.map_map]
    rfl

/-- Witness for C2 at a concrete closed square ring of length 4. -/
theorem loopFromRing_drops_closing_point_witness :
    (4 ≤ ([⟨0, 0⟩, ⟨1, 0⟩, ⟨1, 1⟩, ⟨0, 0⟩] : List Point).length
      ∧ ([⟨0, 0⟩, ⟨1, 0⟩, ⟨1, 1⟩, ⟨0, 0⟩] : List Point).head?
          = ([⟨0, 0⟩, ⟨1, 0⟩, ⟨1, 1⟩, ⟨0, 0⟩] : List Point).getLast?)
    ∧ (loopFromRing [⟨0, 0⟩, ⟨1, 0⟩, ⟨1, 1⟩, ⟨0, 0⟩] true).vertices.length
        = ([⟨0, 0⟩, ⟨1, 0⟩, ⟨1, 1⟩, ⟨0, 0⟩] : List Point).length - 1 :=
  ⟨⟨by decide, by decide⟩,
    (loopFromRing_drops_closing_point [⟨0, 0⟩, ⟨1, 0⟩, ⟨1, 1⟩, ⟨0, 0⟩] true
      (by decide) (by decide)).1⟩

/-- C3 counterexample: the ring [(0,0), (1,1)] has first and last points
that are NOT coordinate-equal, yet the polygon containing it is rejected
with the too-few-points error, not the unclosed-ring error, because the
length check runs first (src/unnamed/part_000 lines 353-360). -/
theorem loopSlice_short_open_ring_counterexample :
    loopSliceFromPolygon (fun _ => false) [[⟨0, 0⟩, ⟨1, 1⟩]]
        = Except.error GeomError.tooFewPoints
    ∧ (⟨0, 0⟩ : Point) ≠ ⟨1, 1⟩
    ∧ (Except.error GeomError.tooFewPoints : Except GeomError (List S2Loop))
        ≠ Except.error GeomError.unclosedRing := by
  refine ⟨?_, by decide, by simp⟩
  rfl

/-- C3 (amended): `loopSliceFromPolygon` rejects every ring with fewer than
4 points with the too-few-points error, rejects every ring WITH AT LEAST 4
POINTS whose first and last points are not coordinate-equal with the
unclosed-ring error (a ring failing both checks gets the too-few-points
error, as the length check runs first), and a polygon containing any such
ring produces an error and no loops. -/
theorem loopSliceFromPolygon_rejects_malformed (capGT90 : S2Loop → Bool)
    (r : List Point) (rs p : List (List Point)) (hmem : r ∈ p) :
    (r.length < 4 →
      loopSliceFromPolygon capGT90 (r :: rs) = Except.error GeomError.tooFewPoints)
    ∧ (4 ≤ r.length → ¬ r.getD 0 ⟨0, 0⟩ = r.getD (r.length - 1) ⟨0, 0⟩ →
      loopSliceFromPolygon capGT90 (r :: rs) = Except.error GeomError.unclosedRing)
    ∧ ((r.length < 4 ∨ ¬ r.getD 0 ⟨0, 0⟩ = r.getD (r.length - 1) ⟨0, 0⟩) →
      ∃ e, loopSliceFromPolygon capGT90 p = Except.error e) := by
  refine ⟨?_, ?_, ?_⟩
  · intro h4
    rw [loopSliceFromPolygon]
    have hn : normalizeRing capGT90 r = Except.error GeomError.tooFewPoints := by
      unfold normalizeRing
      rw [if_pos h4]
    rw [hn]
  · intro h4 hopen
    rw [loopSliceFromPolygon]
    have hn : normalizeRing capGT90 r = Except.error GeomError.unclosedRing := by
      unfold normalizeRing
      rw [if_neg (by omega : ¬ r.length < 4), if_pos hopen]
    rw [hn]
  · intro hbad
    exact loopSlice_mem_error capGT90 r (normalizeRing_bad_error capGT90 r hbad) p hmem

/-- Witness for C3 at a concrete one-ring polygon with a 2-point open
ring. -/
theorem loopSliceFromPolygon_rejects_malformed_witness :
    (([⟨0, 0⟩, ⟨2, 2⟩] : List Point) ∈ [[⟨0, 0⟩, ⟨2, 2⟩]]
      ∧ ([⟨0, 0⟩, ⟨2, 2⟩] : List Point).length < 4)
    ∧ loopSliceFromPolygon (fun _ => true) [[⟨0, 0⟩, ⟨2, 2⟩]]
        = Except.error GeomError.tooFewPoints :=
  ⟨⟨by decide, by decide⟩,
    (loopSliceFromPolygon_rejects_malformed (fun _ => true) [⟨0, 0⟩, ⟨2, 2⟩] []
      [[⟨0, 0⟩, ⟨2, 2⟩]] (by decide)).1 (by decide)⟩

/-- C4: for every ring accepted by the normalizer (at least 4 points,
closed), the loop built from the possibly-reversed point sequence is
inverted in place exactly when the external cap-radius test fires
(`l.CapBound().Radius().Degrees() > 90`, modelled by the `capGT90`
parameter): the accepted loop's vertex data is that of
`loopFromRing r (isClockwise r)` unchanged (never rebuilt), and its
interior/exterior interpretation is complemented iff the test fired; this
is what `loopSliceFromPolygon` collects. -/
theorem normalizeRing_inverts_iff_capGT90 (capGT90 : S2Loop → Bool) (r : List Point)
    (h4 : 4 ≤ r.length) (hcl : r.getD 0 ⟨0, 0⟩ = r.getD (r.length - 1) ⟨0, 0⟩) :
    normalizeRing capGT90 r
      = Except.ok (if capGT90 (loopFromRing r (isClockwise r))
          then invertLoop (loopFromRing r (isClockwise r))
          else loopFromRing r (isClockwise r))
    ∧ (∀ l, normalizeRing capGT90 r = Except.ok l →
        l.vertices = (loopFromRing r (isClockwise r)).vertices
        ∧ (l.inverted = true ↔ capGT90 (loopFromRing r (isClockwise r)) = true))
    ∧ loopSliceFromPolygon capGT90 [r]
      = Except.ok [if capGT90 (loopFromRing r (isClockwise r))
          then invertLoop (loopFromRing r (isClockwise r))
          else loopFromRing r (isClockwise r)] := by
  have h1 : normalizeRing capGT90 r
      = Except.ok (if capGT90 (loopFromRing r (isClockwise r))
          then invertLoop (loopFromRing r (isClockwise r))
          else loopFromRing r (isClockwise r)) := by
    unfold normalizeRing
    rw [if_neg (by omega : ¬ r.length < 4), if_neg (not_not_intro hcl)]
  have hinv : (loopFromRing r (isClockwise r)).inverted = false := rfl
  refine ⟨h1, ?_, ?_⟩
  · intro l hl
    rw [h1] at hl
    have hl2 : l = (if capGT90 (loopFromRing r (isClockwise r))
        then invertLoop (loopFromRing r (isClockwise r))
        else loopFromRing r (isClockwise r)) := by
      cases hl
      rfl
    cases hcap : capGT90 (loopFromRing r (isClockwise r)) with
    | false =>
      rw [hcap] at hl2
      simp only [Bool.false_eq_true, if_false] at hl2
      subst hl2
      simp [hinv]
    | true =>
      rw [hcap] at hl2
      simp only [if_true] at hl2
      subst hl2
      simp [invertLoop, hinv]
  · rw [loopSliceFromPolygon, h1, loopSliceFromPolygon]

/-- Witness for C4 at a closed square ring with a cap test that always
fires. -/
theorem normalizeRing_inverts_iff_capGT90_witness :
    (4 ≤ ([⟨0, 0⟩, ⟨1, 0⟩, ⟨1, 1⟩, ⟨0, 0⟩] : List Point).length
      ∧ ([⟨0, 0⟩, ⟨1, 0⟩, ⟨1, 1⟩, ⟨0, 0⟩] : List Point).getD 0 ⟨0, 0⟩
          = ([⟨0, 0⟩, ⟨1, 0⟩, ⟨1, 1⟩, ⟨0, 0⟩] : List Point).getD
              (([⟨0, 0⟩, ⟨1, 0⟩, ⟨1, 1⟩, ⟨0, 0⟩] : List Point).length - 1) ⟨0, 0⟩)
    ∧ normalizeRing (fun _ => true) [⟨0, 0⟩, ⟨1, 0⟩, ⟨1, 1⟩, ⟨0, 0⟩]
        = Except.ok (if (fun (_ : S2Loop) => true)
              (loopFromRing [⟨0, 0⟩, ⟨1, 0⟩, ⟨1, 1⟩, ⟨0, 0⟩]
                (isClockwise [⟨0, 0⟩, ⟨1, 0⟩, ⟨1, 1⟩, ⟨0, 0⟩]))
            then invertLoop (loopFromRing [⟨0, 0⟩, ⟨1, 0⟩, ⟨1, 1⟩, ⟨0, 0⟩]
                (isClockwise [⟨0, 0⟩, ⟨1, 0⟩, ⟨1, 1⟩, ⟨0, 0⟩]))
            else loopFromRing [⟨0, 0⟩, ⟨1, 0⟩, ⟨1, 1⟩, ⟨0, 0⟩]
                (isClockwise [⟨0, 0⟩, ⟨1, 0⟩, ⟨1, 1⟩, ⟨0, 0⟩])) :=
  ⟨⟨by decide, by decide⟩,
    (normalizeRing_inverts_iff_capGT90 (fun _ => true) [⟨0, 0⟩, ⟨1, 0⟩, ⟨1, 1⟩, ⟨0, 0⟩]
      (by decide) (by decide)).1⟩

/-- C5: winding classification is by the planar shoelace signed-area
formula, and the two implementations agree on every ring: in exact
arithmetic the Orientation-based `isClockwise` of src/unnamed/part_000
(orb's origin-offset cross-product fan, the implicitly closed signed area)
classifies every ring identically to the explicit wraparound shoelace-sum
`isClockwise` of src/rgeo.go, and a ring is clockwise exactly when the
shoelace sum over consecutive point pairs is positive (the fan area is the
negation of the shoelace sum). -/
theorem isClockwise_eq_shoelace (r : List Point) :
    isClockwise r = isClockwiseShoelace r
    ∧ (isClockwise r = true ↔ 0 < shoelaceSum r) := by
  have hs : shoelaceSum r = -orbRingArea r := shoelaceSum_eq_neg_orbRingArea r
  have hmain : isClockwise r = isClockwiseShoelace r := by
    unfold isClockwise ringOrientation isClockwiseShoelace
    rw [hs]
    by_cases h1 : 0 < orbRingArea r
    · rw [if_pos h1, decide_eq_false (by linarith : ¬ (0 : ℚ) < -orbRingArea r)]
      rfl
    · rw [if_neg h1]
      by_cases h2 : orbRingArea r < 0
      · rw [if_pos h2, decide_eq_true (by linarith : (0 : ℚ) < -orbRingArea r)]
        rfl
      · rw [if_neg h2, decide_eq_false (by
          have h0 : orbRingArea r = 0 := le_antisymm (not_lt.1 h1) (not_lt.1 h2)
          rw [h0]
          norm_num : ¬ (0 : ℚ) < -orbRingArea r)]
        rfl
  refine ⟨hmain, ?_⟩
  rw [hmain]
  unfold isClockwiseShoelace
  simp

/-- C6: construction is atomic.  `New` succeeds exactly when every loader's
payload decodes and every feature of every loader ingests (converts to an s2
polygon); on failure only an error is returned (the `Except.error` case
carries no engine).  When the first failing loader fails with an empty
payload, a decompression failure or a decode failure, the error carries that
loader's index. -/
theorem new_atomic (capGT90 : S2Loop → Bool) (lds : List Loader) :
    ((New capGT90 lds).isOk = true ↔ ∀ ld ∈ lds, loaderOK capGT90 ld = true)
    ∧ (∀ pre ld post, lds = pre ++ ld :: post →
        (∀ ld2 ∈ pre, loaderOK capGT90 ld2 = true) →
        (ld.payload = Payload.empty →
          New capGT90 lds = Except.error (RgeoError.noDataInDataset pre.length))
        ∧ (ld.payload = Payload.badGzip →
          New capGT90 lds = Except.error (RgeoError.decompressionFailed pre.length))
        ∧ (ld.payload = Payload.badJson →
          New capGT90 lds = Except.error (RgeoError.invalidJSON pre.length))) := by
  constructor
  · rw [New, buildLoaders_isOk]
    exact ⟨fun hall ld hld => List.all_eq_true.1 hall ld hld,
      fun hall => List.all_eq_true.2 fun ld hld => hall ld hld⟩
  · intro pre ld post hsplit hpre
    subst hsplit
    obtain ⟨h2, r2, hreach⟩ := buildLoaders_append_ok capGT90 pre hpre (ld :: post) 0 0
      { index := [], locs := [], geoms := [] }
    rw [New, hreach, Nat.zero_add]
    refine ⟨?_, ?_, ?_⟩
    · intro hp
      rw [buildLoaders, hp]
    · intro hp
      rw [buildLoaders, hp]
    · intro hp
      rw [buildLoaders, hp]

/-- Witness for C6: a loader list whose second loader has an empty payload
after a loader that ingests (no features). -/
theorem new_atomic_witness :
    ([⟨"Countries110", Payload.decoded []⟩] : List Loader)
        ++ ⟨"Provinces10", Payload.empty⟩ :: []
      = [⟨"Countries110", Payload.decoded []⟩, ⟨"Provinces10", Payload.empty⟩]
    ∧ (⟨"Provinces10", Payload.empty⟩ : Loader).payload = Payload.empty
    ∧ New (fun _ => false)
        [⟨"Countries110", Payload.decoded []⟩, ⟨"Provinces10", Payload.empty⟩]
      = Except.error (RgeoError.noDataInDataset
          ([⟨"Countries110", Payload.decoded []⟩] : List Loader).length) := by
  refine ⟨rfl, rfl, ?_⟩
  exact ((new_atomic (fun _ => false)
      [⟨"Countries110", Payload.decoded []⟩, ⟨"Provinces10", Payload.empty⟩]).2
    [⟨"Countries110", Payload.decoded []⟩] ⟨"Provinces10", Payload.empty⟩ [] rfl
    (by intro ld2 hld2; simp at hld2; subst hld2; rfl)).1 rfl

/-- C7 counterexample: at a point whose containment query returns no
shapes, `ReverseGeocodeWithGeometry` with an empty dataset name (or with an
unregistered name) returns the location-not-found error, not the
missing-parameter or dataset-not-found error: the empty-result check runs
first (src/unnamed/part_000 lines 230-233). -/
theorem rgwg_empty_result_counterexample :
    ReverseGeocodeWithGeometry ⟨[], [], []⟩ [] ""
        = (⟨{}, none⟩, some RgeoError.locationNotFound)
    ∧ ReverseGeocodeWithGeometry ⟨[], [], []⟩ [] "Countries110"
        = (⟨{}, none⟩, some RgeoError.locationNotFound)
    ∧ RgeoError.locationNotFound ≠ RgeoError.missingDatasetParameter
    ∧ RgeoError.locationNotFound ≠ RgeoError.datasetNotFound "Countries110" := by
  exact ⟨rfl, rfl, by decide, by decide⟩

/-- C7 (amended): for every point WHOSE QUERY RETURNS AT LEAST ONE MATCHING
SHAPE, `ReverseGeocodeWithGeometry` with an empty dataset name returns the
missing-parameter error; with a non-empty name that was never registered it
returns the dataset-not-found error; otherwise it returns the merged
location together with the raw geometry of the first matching handle in
index result order that belongs to that dataset, and the
no-geometry-found-for-dataset error when no matching handle belongs to
it. -/
theorem rgwg_dataset_errors (r : Rgeo) (res : List Shape) (ds : String)
    (hres : res ≠ []) :
    (ds = "" → ReverseGeocodeWithGeometry r res ds
        = (⟨{}, none⟩, some RgeoError.missingDatasetParameter))
    ∧ (ds ≠ "" → assocFind r.geoms ds = none →
        ReverseGeocodeWithGeometry r res ds
          = (⟨{}, none⟩, some (RgeoError.datasetNotFound ds)))
    ∧ (∀ m g, ds ≠ "" → assocFind r.geoms ds = some m → findGeometry m res = some g →
        ReverseGeocodeWithGeometry r res ds = (⟨combineLocations r res, some g⟩, none))
    ∧ (∀ m, ds ≠ "" → assocFind r.geoms ds = some m → findGeometry m res = none →
        ReverseGeocodeWithGeometry r res ds
          = (⟨{}, none⟩, some (RgeoError.noGeometryFound ds)))
    ∧ (∀ m : List (Shape × Geometry),
        findGeometry m res = (res.filterMap fun s => assocFind m s).head?) := by
  have hlen : ¬ res.length = 0 := by
    cases res with
    | nil => exact absurd rfl hres
    | cons a l => simp
  refine ⟨?_, ?_, ?_, ?_, ?_⟩
  · intro hds
    rw [ReverseGeocodeWithGeometry, if_neg hlen, if_pos hds]
  · intro hds hfind
    rw [ReverseGeocodeWithGeometry, if_neg hlen, if_neg hds, hfind]
  · intro m g hds hfind hgeom
    rw [ReverseGeocodeWithGeometry, if_neg hlen, if_neg hds, hfind]
    show ((match findGeometry m res with
      | some g => (⟨combineLocations r res, some g⟩, none)
      | none => (⟨{}, none⟩, some (RgeoError.noGeometryFound ds)))
        : LocationWithGeometry × Option RgeoError) = _
    rw [hgeom]
  · intro m hds hfind hgeom
    rw [ReverseGeocodeWithGeometry, if_neg hlen, if_neg hds, hfind]
    show ((match findGeometry m res with
      | some g => (⟨combineLocations r res, some g⟩, none)
      | none => (⟨{}, none⟩, some (RgeoError.noGeometryFound ds)))
        : LocationWithGeometry × Option RgeoError) = _
    rw [hgeom]
  · intro m
    exact findGeometry_eq_head m res

/-- Witness for C7 (amended): non-empty query result, empty dataset
name. -/
theorem rgwg_dataset_errors_witness :
    ([0] : List Shape) ≠ []
    ∧ ReverseGeocodeWithGeometry ⟨[0], [], []⟩ [0] ""
        = (⟨{}, none⟩, some RgeoError.missingDatasetParameter) :=
  ⟨by decide, (rgwg_dataset_errors ⟨[0], [], []⟩ [0] "" (by decide)).1 rfl⟩

/-- C8 counterexample: rendering {Country: "Testland", CountryCode3: "TST"}
yields "<Location> Testland (TST)," with a trailing comma, not
"<Location> Testland (TST)": the comma is appended whenever any prior field
was emitted, even when no continent/region/subregion part follows
(src/unnamed/part_000 lines 469-472). -/
theorem locationString_testland_counterexample :
    locationString { Country := "Testland", CountryCode3 := "TST" }
        = "<Location> Testland (TST),"
    ∧ ("<Location> Testland (TST)," : String) ≠ "<Location> Testland (TST)" := by
  exact ⟨by decide, by decide⟩

/-- C8 (amended): rendering the all-empty Location yields exactly
"<Location> Empty Location"; rendering the Location with Country "Testland"
and CountryCode3 "TST" yields exactly "<Location> Testland (TST)," —
trailing comma included; in general, when none of continent, region and
subregion is present, the comma is still appended after any non-empty
rendered body, so it appears whenever any prior field was emitted, not only
to precede the continent/region/subregion part. -/
theorem locationString_rendering (l : Location) (hne : l ≠ ({} : Location))
    (hc : l.Continent = "") (hr : l.Region = "") (hs : l.SubRegion = "")
    (hemit : l.City ≠ "" ∨ l.Province ≠ "" ∨ l.Country ≠ "" ∨ l.CountryLong ≠ "" ∨
      l.CountryCode3 ≠ "" ∨ l.CountryCode2 ≠ "") :
    locationString ({} : Location) = "<Location> Empty Location"
    ∧ locationString { Country := "Testland", CountryCode3 := "TST" }
        = "<Location> Testland (TST),"
    ∧ locationString l = locationBody l ++ "," := by
  exact ⟨by decide, by decide, locationString_comma l hne hc hr hs hemit⟩

/-- Witness for C8 (amended) at the Testland Location itself. -/
theorem locationString_rendering_witness :
    (({ Country := "Testland", CountryCode3 := "TST" } : Location) ≠ ({} : Location)
      ∧ ({ Country := "Testland", CountryCode3 := "TST" } : Location).Continent = ""
      ∧ ({ Country := "Testland", CountryCode3 := "TST" } : Location).Country ≠ "")
    ∧ locationString { Country := "Testland", CountryCode3 := "TST" }
        = locationBody { Country := "Testland", CountryCode3 := "TST" } ++ "," :=
  ⟨⟨by decide, rfl, by decide⟩,
    (locationString_rendering { Country := "Testland", CountryCode3 := "TST" }
      (by decide) rfl rfl rfl (Or.inr (Or.inr (Or.inl (by decide))))).2.2⟩

/-- C9: `getPropertyString` returns the value of the first candidate key
whose value is a string (the head of the string-typed hits in candidate
order, else ""); a key whose value is present but not a string is skipped
exactly as if the key were absent; and with no candidate keys the result is
the empty string. -/
theorem getPropertyString_first_string_key (m : String → Option Scalar)
    (keys : List String) (k : String) (hk : asString (m k) = none) :
    getPropertyString m keys = ((keys.filterMap fun j => asString (m j)).headD "")
    ∧ getPropertyString m keys
        = getPropertyString (fun j => if j = k then none else m j) keys
    ∧ getPropertyString m [] = "" :=
  ⟨getPropertyString_eq_head m keys, getPropertyString_skip_key m k hk keys, rfl⟩

/-- Witness for C9: a map holding a number under "ADMIN" and a string under
"admin"; the number key is skipped. -/
theorem getPropertyString_first_string_key_witness :
    asString ((fun j => if j = "ADMIN" then some (Scalar.num 3)
        else if j = "admin" then some (Scalar.str "France") else none) "ADMIN") = none
    ∧ getPropertyString (fun j => if j = "ADMIN" then some (Scalar.num 3)
        else if j = "admin" then some (Scalar.str "France") else none) ["ADMIN", "admin"]
      = ((["ADMIN", "admin"].filterMap fun j => asString
          ((fun j => if j = "ADMIN" then some (Scalar.num 3)
            else if j = "admin" then some (Scalar.str "France") else none) j)).headD "") :=
  ⟨rfl,
    (getPropertyString_first_string_key
      (fun j => if j = "ADMIN" then some (Scalar.num 3)
        else if j = "admin" then some (Scalar.str "France") else none)
      ["ADMIN", "admin"] "ADMIN" rfl).1⟩

/-- C10: whenever `ReverseGeocodeWithGeometry` returns an error, the
returned `LocationWithGeometry` is the zero value — in particular on the
no-geometry-found path the merged location already computed is discarded. -/
theorem rgwg_zero_value_on_error (r : Rgeo) (res : List Shape) (ds : String)
    (out : LocationWithGeometry) (e : RgeoError)
    (h : ReverseGeocodeWithGeometry r res ds = (out, some e)) :
    out = ⟨{}, none⟩ := by
  unfold ReverseGeocodeWithGeometry at h
  repeat' split at h
  all_goals first
    | exact ((Prod.ext_iff.1 h).1).symm
    | exact absurd (Prod.ext_iff.1 h).2 (by simp)

/-- Witness for C10 at a concrete erroring call. -/
theorem rgwg_zero_value_on_error_witness :
    ReverseGeocodeWithGeometry ⟨[], [], []⟩ [] ""
        = (⟨{}, none⟩, some RgeoError.locationNotFound)
    ∧ (⟨{}, none⟩ : LocationWithGeometry) = ⟨{}, none⟩ :=
  ⟨rfl,
    rgwg_zero_value_on_error ⟨[], [], []⟩ [] "" ⟨{}, none⟩ RgeoError.locationNotFound rfl⟩
